import Mathlib

/-!
# mock-kms-plugin: latency simulator and plugin service

A shallow embedding of `pkg/services/nop_service.go`.

* `time.Duration` is an `int64` count of nanoseconds. Durations are integers here, the
  results of Go's wrapping arithmetic pass through `wrap64`, and `isInt64` states that a
  value is representable.
* A Go panic is the `Except.error` result, carrying which panic it was.
* The process-wide random source is an input: the raw 63-bit draw that `rand.Int63n`
  reduces. `rand.Seed(time.Now().UnixNano())` only selects which draw comes next, so it
  is covered by quantifying over the draw.
* A handler returns its response, its Go `error` value and the observable calls it made
  (a latency sample, a `time.Sleep`). Logging through klog is left out.
* The gRPC library is outside the repository. Of it the model keeps the handles that
  `grpc.NewServer` gives out and the method calls the service issues on them.
-/

namespace MockKms

/-! ## Machine integers -/

/-- Wrap an integer into the signed 64-bit range, as Go's `int64` arithmetic does. -/
def wrap64 (x : Int) : Int :=
  (x + 9223372036854775808) % 18446744073709551616 - 9223372036854775808

/-- The value fits an `int64`, the representation of `time.Duration`. -/
def isInt64 (x : Int) : Prop :=
  -9223372036854775808 ≤ x ∧ x < 9223372036854775808

instance (x : Int) : Decidable (isInt64 x) := by
  unfold isInt64
  infer_instance

/-! ## Panics -/

/-- The two panics reachable from the service code. -/
inductive Panic where
  /-- Raised by `generateRandomDuration`:
  "Minimum duration cannot be greater than maximum duration". -/
  | minGreaterThanMax
  /-- Raised by `rand.Int63n` on a bound `n <= 0`: "invalid argument to Int63n". -/
  | invalidInt63nArgument
  deriving DecidableEq, Repr

/-! ## Latency simulator -/

/-- Go's `rand.Int63n(n)`: panics when `n <= 0`, otherwise reduces a raw draw modulo `n`.
The argument `v` is the draw of the source that the library accepts; its low 63 bits are
what `Int63` hands out. For `n` a power of two the library masks with `n - 1`, which is
the same remainder. -/
def Int63n (n : Int) (v : Nat) : Except Panic Int :=
  if n ≤ 0 then Except.error Panic.invalidInt63nArgument
  else Except.ok (((v % 9223372036854775808 : Nat) : Int) % n)

/-- Embedding of `generateRandomDuration(min, max)`; `v` is the draw of the random source. -/
def generateRandomDuration (min max : Int) (v : Nat) : Except Panic Int :=
  if min > max then Except.error Panic.minGreaterThanMax
  else
    let durationRange := wrap64 (max - min)
    match (if durationRange ≠ 0 then Int63n durationRange v else Except.ok 0) with
    | Except.error p => Except.error p
    | Except.ok randomNanos => Except.ok (wrap64 (min + randomNanos))

/-! ## Messages of the KMS v1beta1 protocol -/

/-- A Go byte slice. -/
abbrev Bytes := List (Fin 256)

/-- The bytes of the Go string literal "ping": p, i, n, g. -/
def ping : Bytes := [112, 105, 110, 103]

/-- The message `v1beta1.VersionRequest`. -/
structure VersionRequest where
  version : String
  deriving DecidableEq, Repr

/-- The message `v1beta1.VersionResponse`. -/
structure VersionResponse where
  version : String
  runtimeName : String
  runtimeVersion : String
  deriving DecidableEq, Repr

/-- The message `v1beta1.DecryptRequest`. -/
structure DecryptRequest where
  cipher : Bytes
  deriving DecidableEq, Repr

/-- The message `v1beta1.DecryptResponse`. -/
structure DecryptResponse where
  plain : Bytes
  deriving DecidableEq, Repr

/-- The message `v1beta1.EncryptRequest`. -/
structure EncryptRequest where
  plain : Bytes
  deriving DecidableEq, Repr

/-- The message `v1beta1.EncryptResponse`. -/
structure EncryptResponse where
  cipher : Bytes
  deriving DecidableEq, Repr

/-! ## Handlers -/

/-- The observable calls a handler makes besides building its response. -/
inductive Effect where
  /-- A call `generateRandomDuration(min, max)` that returned. -/
  | sample (min max : Int)
  /-- A call `time.Sleep(d)`. -/
  | sleep (d : Int)
  deriving DecidableEq, Repr

/-- What a handler returns: the response, the Go `error` (`none` is `nil`) and the calls
it made, oldest first. -/
structure Reply (α : Type) where
  response : α
  err : Option String
  effects : List Effect

/-- The receiver `NopService`. The field `server` is the `*grpc.Server` pointer: `none`
is `nil`, `some h` points at the server with handle `h`. -/
structure NopService where
  addr : String
  timeout : Int
  server : Option Nat
  encryptionLatencyMin : Int
  decryptionLatencyMin : Int
  encryptionLatencyMax : Int
  decryptionLatencyMax : Int
  deriving DecidableEq, Repr

/-- Embedding of `(*NopService).Version`. -/
def Version (_n : NopService) (_request : VersionRequest) :
    Except Panic (Reply VersionResponse) :=
  Except.ok {
    response := { version := "v1beta1", runtimeName := "mock-kms-plugin",
                  runtimeVersion := "0.0.1" }
    err := none
    effects := [] }

/-- Embedding of `(*NopService).Decrypt`; `v` is the draw of the random source. -/
def Decrypt (n : NopService) (request : DecryptRequest) (v : Nat) :
    Except Panic (Reply DecryptResponse) :=
  match generateRandomDuration n.decryptionLatencyMin n.decryptionLatencyMax v with
  | Except.error p => Except.error p
  | Except.ok randomDelay =>
    Except.ok {
      response := { plain := request.cipher }
      err := none
      effects :=
        if request.cipher ≠ ping then
          [Effect.sample n.decryptionLatencyMin n.decryptionLatencyMax,
           Effect.sleep randomDelay]
        else [Effect.sample n.decryptionLatencyMin n.decryptionLatencyMax] }

/-- Embedding of `(*NopService).Encrypt`; `v` is the draw of the random source. -/
def Encrypt (n : NopService) (request : EncryptRequest) (v : Nat) :
    Except Panic (Reply EncryptResponse) :=
  match generateRandomDuration n.encryptionLatencyMin n.encryptionLatencyMax v with
  | Except.error p => Except.error p
  | Except.ok randomDelay =>
    Except.ok {
      response := { cipher := request.plain }
      err := none
      effects :=
        if request.plain ≠ ping then
          [Effect.sample n.encryptionLatencyMin n.encryptionLatencyMax,
           Effect.sleep randomDelay]
        else [Effect.sample n.encryptionLatencyMin n.encryptionLatencyMax] }

/-- Embedding of `NewNopService`: it stores its arguments and leaves `server` nil. -/
def NewNopService (address : String) (timeout : Int)
    (decryptionLatencyMin decryptionLatencyMax : Int)
    (encryptionLatencyMin encryptionLatencyMax : Int) : NopService :=
  { addr := address
    timeout := timeout
    server := none
    encryptionLatencyMin := encryptionLatencyMin
    decryptionLatencyMin := decryptionLatencyMin
    encryptionLatencyMax := encryptionLatencyMax
    decryptionLatencyMax := decryptionLatencyMax }

/-! ## Lifecycle -/

/-- The methods of `*grpc.Server` that the service calls. -/
inductive ServerCall where
  /-- The call `v1beta1.RegisterKeyManagementServiceServer(gs, n)`. -/
  | register
  /-- The call `gs.Serve(ln)`, which blocks while the server is serving. -/
  | serve
  /-- The call `gs.GracefulStop()`. -/
  | gracefulStop
  /-- The call `gs.Stop()`. -/
  | stop
  deriving DecidableEq, Repr

/-- The gRPC library as the service sees it: how many servers `grpc.NewServer` has
created (their handles are `0, 1, ...`) and the calls issued on them, oldest first. -/
structure Grpc where
  servers : Nat
  calls : List (Nat × ServerCall)
  deriving DecidableEq, Repr

/-- How far a call of `ListenAndServe` gets. -/
inductive Started where
  /-- The call returned the error of `net.Listen`. -/
  | failed (err : String)
  /-- The call is inside `gs.Serve(ln)` on the server with handle `gs`. -/
  | serving (gs : Nat)
  deriving DecidableEq, Repr

/-- Embedding of `(*NopService).ListenAndServe` up to its blocking call `gs.Serve(ln)`.
The argument `listen` is the outcome of `net.Listen("unix", n.addr)`: `none` when the
listener is bound, `some err` when binding failed. -/
def ListenAndServe (n : NopService) (g : Grpc) (listen : Option String) :
    NopService × Grpc × Started :=
  match listen with
  | some err => (n, g, Started.failed err)
  | none =>
    let gs := g.servers
    ({ n with server := some gs },
     { servers := g.servers + 1,
       calls := g.calls ++ [(gs, ServerCall.register), (gs, ServerCall.serve)] },
     Started.serving gs)

/-- Embedding of `(*NopService).Shutdown`. -/
def Shutdown (n : NopService) (g : Grpc) : NopService × Grpc :=
  match n.server with
  | some gs => (n, { g with calls := g.calls ++ [(gs, ServerCall.gracefulStop)] })
  | none => (n, g)

/-- Embedding of `(*NopService).Close`. -/
def Close (n : NopService) (g : Grpc) : NopService × Grpc :=
  match n.server with
  | some gs => (n, { g with calls := g.calls ++ [(gs, ServerCall.stop)] })
  | none => (n, g)

/-- The server with handle `h` is serving: `Serve` was called on it and neither stop
call has been issued on it. -/
def serving (g : Grpc) (h : Nat) : Prop :=
  (h, ServerCall.serve) ∈ g.calls ∧ (h, ServerCall.gracefulStop) ∉ g.calls ∧
    (h, ServerCall.stop) ∉ g.calls

instance (g : Grpc) (h : Nat) : Decidable (serving g h) := by
  unfold serving
  infer_instance

/-- The instance is Running: it records a server and that server is serving. -/
def Running (n : NopService) (g : Grpc) : Prop :=
  match n.server with
  | some h => serving g h
  | none => False

instance (n : NopService) (g : Grpc) : Decidable (Running n g) := by
  unfold Running
  cases n.server <;> infer_instance

/-- The instance was running and has been stopped: it records a server on which a stop
call has been issued. -/
def Stopped (n : NopService) (g : Grpc) : Prop :=
  match n.server with
  | some h => (h, ServerCall.gracefulStop) ∈ g.calls ∨ (h, ServerCall.stop) ∈ g.calls
  | none => False

instance (n : NopService) (g : Grpc) : Decidable (Stopped n g) := by
  unfold Stopped
  cases n.server <;> infer_instance

/-- The gRPC library before any server has been created. -/
def Grpc.fresh : Grpc := { servers := 0, calls := [] }

/-! ## Facts about the latency simulator -/

theorem wrap64_eq_self {x : Int} (h : isInt64 x) : wrap64 x = x := by
  unfold isInt64 at h
  unfold wrap64
  omega

theorem Int63n_ok {n : Int} (hn : 0 < n) (v : Nat) :
    ∃ r, Int63n n v = Except.ok r ∧ 0 ≤ r ∧ r < n := by
  refine ⟨((v % 9223372036854775808 : Nat) : Int) % n, ?_, ?_, ?_⟩
  · unfold Int63n
    rw [if_neg (by omega)]
  · exact Int.emod_nonneg _ (by omega)
  · exact Int.emod_lt_of_pos _ hn

/-- The sampler on bounds whose difference fits an `int64`: it returns, inside the
window, below `max` when the window is not a point. -/
theorem generateRandomDuration_ok {min max : Int} (hmin : isInt64 min) (hmax : isInt64 max)
    (hle : min ≤ max) (hfit : max - min < 9223372036854775808) (v : Nat) :
    ∃ d, generateRandomDuration min max v = Except.ok d ∧ min ≤ d ∧ d ≤ max ∧
      (min < max → d < max) ∧ (min = max → d = min) := by
  have hrange : wrap64 (max - min) = max - min := by
    apply wrap64_eq_self
    unfold isInt64 at *
    omega
  unfold generateRandomDuration
  rw [if_neg (by omega)]
  simp only [hrange]
  by_cases heq : max - min = 0
  · refine ⟨min, ?_, le_refl _, hle, ?_, fun _ => rfl⟩
    · simp [heq, wrap64_eq_self hmin]
    · intro hlt
      omega
  · obtain ⟨r, hr, hr0, hrn⟩ := Int63n_ok (n := max - min) (by omega) v
    have hd : isInt64 (min + r) := by
      unfold isInt64 at *
      omega
    refine ⟨min + r, ?_, by omega, by omega, fun _ => by omega, fun h => by omega⟩
    simp [heq, hr, wrap64_eq_self hd]

/-- The sampler panics with its own message whenever `min > max`. -/
theorem generateRandomDuration_panics {min max : Int} (h : min > max) (v : Nat) :
    generateRandomDuration min max v = Except.error Panic.minGreaterThanMax := by
  unfold generateRandomDuration
  rw [if_pos h]

/-- The handlers on bounds whose difference fits an `int64`: the reply carries the payload
unchanged, no error, the sample, and a sleep of the sampled value unless the payload is
the sentinel. -/
theorem Encrypt_ok {n : NopService} (hmin : isInt64 n.encryptionLatencyMin)
    (hmax : isInt64 n.encryptionLatencyMax)
    (hle : n.encryptionLatencyMin ≤ n.encryptionLatencyMax)
    (hfit : n.encryptionLatencyMax - n.encryptionLatencyMin < 9223372036854775808)
    (x : Bytes) (v : Nat) :
    ∃ d, generateRandomDuration n.encryptionLatencyMin n.encryptionLatencyMax v = Except.ok d ∧
      n.encryptionLatencyMin ≤ d ∧ d ≤ n.encryptionLatencyMax ∧
      Encrypt n { plain := x } v = Except.ok {
        response := { cipher := x }
        err := none
        effects :=
          if x ≠ ping then
            [Effect.sample n.encryptionLatencyMin n.encryptionLatencyMax, Effect.sleep d]
          else [Effect.sample n.encryptionLatencyMin n.encryptionLatencyMax] } := by
  obtain ⟨d, hd, h1, h2, _, _⟩ := generateRandomDuration_ok hmin hmax hle hfit v
  refine ⟨d, hd, h1, h2, ?_⟩
  unfold Encrypt
  rw [hd]

theorem Decrypt_ok {n : NopService} (hmin : isInt64 n.decryptionLatencyMin)
    (hmax : isInt64 n.decryptionLatencyMax)
    (hle : n.decryptionLatencyMin ≤ n.decryptionLatencyMax)
    (hfit : n.decryptionLatencyMax - n.decryptionLatencyMin < 9223372036854775808)
    (x : Bytes) (v : Nat) :
    ∃ d, generateRandomDuration n.decryptionLatencyMin n.decryptionLatencyMax v = Except.ok d ∧
      n.decryptionLatencyMin ≤ d ∧ d ≤ n.decryptionLatencyMax ∧
      Decrypt n { cipher := x } v = Except.ok {
        response := { plain := x }
        err := none
        effects :=
          if x ≠ ping then
            [Effect.sample n.decryptionLatencyMin n.decryptionLatencyMax, Effect.sleep d]
          else [Effect.sample n.decryptionLatencyMin n.decryptionLatencyMax] } := by
  obtain ⟨d, hd, h1, h2, _, _⟩ := generateRandomDuration_ok hmin hmax hle hfit v
  refine ⟨d, hd, h1, h2, ?_⟩
  unfold Decrypt
  rw [hd]

/-- A handler that returns has its effects fixed by the sample. -/
theorem Encrypt_effects {n : NopService} {x : Bytes} {v : Nat} {r : Reply EncryptResponse}
    (h : Encrypt n { plain := x } v = Except.ok r) :
    ∃ d, r.effects =
      if x ≠ ping then
        [Effect.sample n.encryptionLatencyMin n.encryptionLatencyMax, Effect.sleep d]
      else [Effect.sample n.encryptionLatencyMin n.encryptionLatencyMax] := by
  unfold Encrypt at h
  cases hg : generateRandomDuration n.encryptionLatencyMin n.encryptionLatencyMax v with
  | error p => rw [hg] at h; cases h
  | ok d =>
    rw [hg] at h
    injection h with h
    exact ⟨d, by rw [← h]⟩

theorem Decrypt_effects {n : NopService} {x : Bytes} {v : Nat} {r : Reply DecryptResponse}
    (h : Decrypt n { cipher := x } v = Except.ok r) :
    ∃ d, r.effects =
      if x ≠ ping then
        [Effect.sample n.decryptionLatencyMin n.decryptionLatencyMax, Effect.sleep d]
      else [Effect.sample n.decryptionLatencyMin n.decryptionLatencyMax] := by
  unfold Decrypt at h
  cases hg : generateRandomDuration n.decryptionLatencyMin n.decryptionLatencyMax v with
  | error p => rw [hg] at h; cases h
  | ok d =>
    rw [hg] at h
    injection h with h
    exact ⟨d, by rw [← h]⟩

/-- A handler whose bounds have `min > max` panics for every payload. -/
theorem Encrypt_panics {n : NopService}
    (h : n.encryptionLatencyMin > n.encryptionLatencyMax) (x : Bytes) (v : Nat) :
    Encrypt n { plain := x } v = Except.error Panic.minGreaterThanMax := by
  unfold Encrypt
  rw [generateRandomDuration_panics h]

theorem Decrypt_panics {n : NopService}
    (h : n.decryptionLatencyMin > n.decryptionLatencyMax) (x : Bytes) (v : Nat) :
    Decrypt n { cipher := x } v = Except.error Panic.minGreaterThanMax := by
  unfold Decrypt
  rw [generateRandomDuration_panics h]

/-! ## The latency simulator: claims C2, C3, C4 -/

/-- C2, as stated, fails: the bounds -5e18 ns and 5e18 ns are `int64` durations with
`min ≤ max`, yet `max - min` wraps to a negative `int64`, `rand.Int63n` is asked for a
negative bound and the sampler panics instead of returning a value in the window. -/
theorem generateRandomDuration_wide_window_panics :
    isInt64 (-5000000000000000000) ∧ isInt64 5000000000000000000 ∧
    (-5000000000000000000 : Int) ≤ 5000000000000000000 ∧
    wrap64 (5000000000000000000 - -5000000000000000000) = -8446744073709551616 ∧
    generateRandomDuration (-5000000000000000000) 5000000000000000000 0
      = Except.error Panic.invalidInt63nArgument ∧
    ¬ (∀ (min max : Int) (v : Nat), isInt64 min → isInt64 max → min ≤ max →
        ∃ d, generateRandomDuration min max v = Except.ok d ∧ min ≤ d ∧ d ≤ max ∧
          (min = max → d = min)) := by
  refine ⟨by decide, by decide, by decide, by decide, rfl, ?_⟩
  intro h
  obtain ⟨d, hd, _⟩ :=
    h (-5000000000000000000) 5000000000000000000 0 (by decide) (by decide) (by decide)
  have hp : generateRandomDuration (-5000000000000000000) 5000000000000000000 0
      = Except.error Panic.invalidInt63nArgument := rfl
  rw [hp] at hd
  cases hd

/-- C2, amended: for `int64` bounds with `min ≤ max` whose difference `max - min` fits an
`int64` (so for all non-negative bounds) and every draw of the random source, the sampler
returns a value `d` with `min ≤ d ≤ max`, and `d = min` when `min = max`. -/
theorem generateRandomDuration_within_bounds (min max : Int) (v : Nat)
    (hmin : isInt64 min) (hmax : isInt64 max) (hle : min ≤ max)
    (hfit : max - min < 9223372036854775808) :
    ∃ d, generateRandomDuration min max v = Except.ok d ∧ min ≤ d ∧ d ≤ max ∧
      (min = max → d = min) := by
  obtain ⟨d, hd, h1, h2, _, h4⟩ := generateRandomDuration_ok hmin hmax hle hfit v
  exact ⟨d, hd, h1, h2, h4⟩

/-- The amended C2 at min = -3 s, max = 7 s. -/
theorem generateRandomDuration_within_bounds_witness :
    ∃ d, generateRandomDuration (-3000000000) 7000000000 123456789012 = Except.ok d ∧
      -3000000000 ≤ d ∧ d ≤ 7000000000 ∧ ((-3000000000 : Int) = 7000000000 → d = -3000000000) :=
  generateRandomDuration_within_bounds (-3000000000) 7000000000 123456789012
    (by decide) (by decide) (by decide) (by decide)

/-- C3: for durations with `0 ≤ min < max` and every draw of the random source, the range
`max - min` computed in 64-bit arithmetic does not wrap and is strictly positive, the
bounded draw is requested with that positive bound and returns, and the sampler returns a
value `d` with `min ≤ d < max`, so never `max` itself. -/
theorem generateRandomDuration_half_open (min max : Int) (v : Nat)
    (h0 : 0 ≤ min) (hlt : min < max) (hmax : isInt64 max) :
    wrap64 (max - min) = max - min ∧ 0 < wrap64 (max - min) ∧
    (∃ r, Int63n (wrap64 (max - min)) v = Except.ok r ∧ 0 ≤ r ∧ r < max - min) ∧
    (∃ d, generateRandomDuration min max v = Except.ok d ∧ min ≤ d ∧ d < max) ∧
    generateRandomDuration min max v ≠ Except.ok max := by
  have hmin : isInt64 min := by
    unfold isInt64 at *
    omega
  have hrange : wrap64 (max - min) = max - min := by
    apply wrap64_eq_self
    unfold isInt64 at *
    omega
  obtain ⟨d, hd, h1, _, h3, _⟩ :=
    generateRandomDuration_ok hmin hmax (le_of_lt hlt)
      (by unfold isInt64 at hmax; omega) v
  refine ⟨hrange, by omega, ?_, ⟨d, hd, h1, h3 hlt⟩, ?_⟩
  · rw [hrange]
    exact Int63n_ok (by omega) v
  · rw [hd]
    intro h
    injection h with h
    have := h3 hlt
    omega

/-- C3 at min = 100 ms, max = 200 ms. -/
theorem generateRandomDuration_half_open_witness :
    wrap64 (200000000 - 100000000) = 200000000 - 100000000 ∧
    0 < wrap64 (200000000 - 100000000) ∧
    (∃ r, Int63n (wrap64 (200000000 - 100000000)) 123456789012 = Except.ok r ∧ 0 ≤ r ∧
      r < 200000000 - 100000000) ∧
    (∃ d, generateRandomDuration 100000000 200000000 123456789012 = Except.ok d ∧
      100000000 ≤ d ∧ d < 200000000) ∧
    generateRandomDuration 100000000 200000000 123456789012 ≠ Except.ok 200000000 :=
  generateRandomDuration_half_open 100000000 200000000 123456789012
    (by decide) (by decide) (by decide)

/-- C4: for every pair of durations with `min > max` and every draw, the sampler panics
with its own message and returns no duration (so neither a clamped value nor a value of
the swapped window); and for non-negative `int64` bounds it fails if and only if
`min > max`. -/
theorem generateRandomDuration_fails_iff (min max : Int) (v : Nat) :
    (min > max →
      generateRandomDuration min max v = Except.error Panic.minGreaterThanMax ∧
      ∀ d, generateRandomDuration min max v ≠ Except.ok d) ∧
    (0 ≤ min → 0 ≤ max → isInt64 min → isInt64 max →
      ((∃ p, generateRandomDuration min max v = Except.error p) ↔ min > max)) := by
  constructor
  · intro h
    refine ⟨generateRandomDuration_panics h v, ?_⟩
    intro d hd
    rw [generateRandomDuration_panics h v] at hd
    cases hd
  · intro h0 h0max hmin hmax
    constructor
    · rintro ⟨p, hp⟩
      by_contra hnot
      obtain ⟨d, hd, _⟩ :=
        generateRandomDuration_ok hmin hmax (by omega)
          (by unfold isInt64 at hmax; omega) v
      rw [hd] at hp
      cases hp
    · intro h
      exact ⟨Panic.minGreaterThanMax, generateRandomDuration_panics h v⟩

/-- C4 at the inverted bounds (200 ms, 100 ms) and at the bounds (100 ms, 200 ms). -/
theorem generateRandomDuration_fails_iff_witness :
    (generateRandomDuration 200000000 100000000 42 = Except.error Panic.minGreaterThanMax ∧
      ∀ d, generateRandomDuration 200000000 100000000 42 ≠ Except.ok d) ∧
    ((∃ p, generateRandomDuration 100000000 200000000 42 = Except.error p) ↔
      (100000000 : Int) > 200000000) :=
  ⟨(generateRandomDuration_fails_iff 200000000 100000000 42).1 (by decide),
   (generateRandomDuration_fails_iff 100000000 200000000 42).2
     (by decide) (by decide) (by decide) (by decide)⟩

/-! ## The handlers: claims C1, C5, C6, C7 -/

/-- C1, as stated, fails: with encrypt bounds -5e18 ns and 5e18 ns (and decrypt bounds
both 0) the configuration has `min ≤ max` for both operations, yet `Encrypt` of the empty
payload panics and returns no response; the same bounds on the decrypt side make
`Decrypt` panic. -/
theorem Encrypt_Decrypt_wide_window_panic :
    (NewNopService "/tmp/kms.socket" 5000000000 0 0
        (-5000000000000000000) 5000000000000000000).encryptionLatencyMin
      ≤ (NewNopService "/tmp/kms.socket" 5000000000 0 0
        (-5000000000000000000) 5000000000000000000).encryptionLatencyMax ∧
    (NewNopService "/tmp/kms.socket" 5000000000 0 0
        (-5000000000000000000) 5000000000000000000).decryptionLatencyMin
      ≤ (NewNopService "/tmp/kms.socket" 5000000000 0 0
        (-5000000000000000000) 5000000000000000000).decryptionLatencyMax ∧
    Encrypt (NewNopService "/tmp/kms.socket" 5000000000 0 0
        (-5000000000000000000) 5000000000000000000) { plain := [] } 0
      = Except.error Panic.invalidInt63nArgument ∧
    Decrypt (NewNopService "/tmp/kms.socket" 5000000000
        (-5000000000000000000) 5000000000000000000 0 0) { cipher := [] } 0
      = Except.error Panic.invalidInt63nArgument :=
  ⟨by decide, by decide, rfl, rfl⟩

/-- C1, amended: for every configuration whose bounds of an operation are `int64` values
with `min ≤ max` and a difference `max - min` that fits an `int64` (so for all
non-negative bounds), every draw of the random source and every byte sequence `x`,
`Encrypt` returns a response with no error whose cipher field equals `x`, and `Decrypt`
returns a response with no error whose plain field equals `x`. -/
theorem Encrypt_Decrypt_identity (n : NopService) (x : Bytes) (v : Nat) :
    (isInt64 n.encryptionLatencyMin → isInt64 n.encryptionLatencyMax →
      n.encryptionLatencyMin ≤ n.encryptionLatencyMax →
      n.encryptionLatencyMax - n.encryptionLatencyMin < 9223372036854775808 →
      ∃ r, Encrypt n { plain := x } v = Except.ok r ∧ r.err = none ∧
        r.response.cipher = x) ∧
    (isInt64 n.decryptionLatencyMin → isInt64 n.decryptionLatencyMax →
      n.decryptionLatencyMin ≤ n.decryptionLatencyMax →
      n.decryptionLatencyMax - n.decryptionLatencyMin < 9223372036854775808 →
      ∃ r, Decrypt n { cipher := x } v = Except.ok r ∧ r.err = none ∧
        r.response.plain = x) := by
  constructor
  · intro hmin hmax hle hfit
    obtain ⟨d, _, _, _, h⟩ := Encrypt_ok hmin hmax hle hfit x v
    exact ⟨_, h, rfl, rfl⟩
  · intro hmin hmax hle hfit
    obtain ⟨d, _, _, _, h⟩ := Decrypt_ok hmin hmax hle hfit x v
    exact ⟨_, h, rfl, rfl⟩

/-- The amended C1 on the payload "ping" for `Encrypt` and the empty payload for `Decrypt`. -/
theorem Encrypt_Decrypt_identity_witness :
    (∃ r, Encrypt (NewNopService "/tmp/kms.socket" 5000000000 0 1000000 100000000 200000000)
        { plain := ping } 31337 = Except.ok r ∧ r.err = none ∧ r.response.cipher = ping) ∧
    (∃ r, Decrypt (NewNopService "/tmp/kms.socket" 5000000000 0 1000000 100000000 200000000)
        { cipher := [] } 31337 = Except.ok r ∧ r.err = none ∧ r.response.plain = []) :=
  ⟨(Encrypt_Decrypt_identity
      (NewNopService "/tmp/kms.socket" 5000000000 0 1000000 100000000 200000000)
      ping 31337).1 (by decide) (by decide) (by decide) (by decide),
   (Encrypt_Decrypt_identity
      (NewNopService "/tmp/kms.socket" 5000000000 0 1000000 100000000 200000000)
      [] 31337).2 (by decide) (by decide) (by decide) (by decide)⟩

/-- C5, as stated, fails: the bypass does not hold whatever the bounds are. The sample is
taken before the payload is looked at, so with encrypt bounds min = 5 s and max = 1 s the
request `Encrypt("ping")` panics and returns no response, and so does `Decrypt("ping")`
with those decrypt bounds. -/
theorem ping_panics_on_inverted_bounds :
    Encrypt (NewNopService "/tmp/kms.socket" 5000000000 0 0 5000000000 1000000000)
        { plain := ping } 0 = Except.error Panic.minGreaterThanMax ∧
    Decrypt (NewNopService "/tmp/kms.socket" 5000000000 5000000000 1000000000 0 0)
        { cipher := ping } 0 = Except.error Panic.minGreaterThanMax :=
  ⟨rfl, rfl⟩

/-- C5, amended: for bounds on which the sample is taken (`int64` values with `min ≤ max`
and a difference that fits an `int64`), however large, a handler called with the payload
"ping" returns its response after the sample and no sleep, and called with any other
payload it sleeps exactly the sampled duration before returning its response. Whatever
the bounds, a handler that returns for "ping" has not slept. -/
theorem sentinel_bypass (n : NopService) (x : Bytes) (v : Nat) :
    (isInt64 n.encryptionLatencyMin → isInt64 n.encryptionLatencyMax →
      n.encryptionLatencyMin ≤ n.encryptionLatencyMax →
      n.encryptionLatencyMax - n.encryptionLatencyMin < 9223372036854775808 →
      Encrypt n { plain := ping } v = Except.ok {
          response := { cipher := ping }
          err := none
          effects := [Effect.sample n.encryptionLatencyMin n.encryptionLatencyMax] } ∧
      (x ≠ ping → ∃ d,
        generateRandomDuration n.encryptionLatencyMin n.encryptionLatencyMax v = Except.ok d ∧
        Encrypt n { plain := x } v = Except.ok {
          response := { cipher := x }
          err := none
          effects := [Effect.sample n.encryptionLatencyMin n.encryptionLatencyMax,
                      Effect.sleep d] })) ∧
    (isInt64 n.decryptionLatencyMin → isInt64 n.decryptionLatencyMax →
      n.decryptionLatencyMin ≤ n.decryptionLatencyMax →
      n.decryptionLatencyMax - n.decryptionLatencyMin < 9223372036854775808 →
      Decrypt n { cipher := ping } v = Except.ok {
          response := { plain := ping }
          err := none
          effects := [Effect.sample n.decryptionLatencyMin n.decryptionLatencyMax] } ∧
      (x ≠ ping → ∃ d,
        generateRandomDuration n.decryptionLatencyMin n.decryptionLatencyMax v = Except.ok d ∧
        Decrypt n { cipher := x } v = Except.ok {
          response := { plain := x }
          err := none
          effects := [Effect.sample n.decryptionLatencyMin n.decryptionLatencyMax,
                      Effect.sleep d] })) ∧
    (∀ r, Encrypt n { plain := ping } v = Except.ok r → ∀ d, Effect.sleep d ∉ r.effects) ∧
    (∀ r, Decrypt n { cipher := ping } v = Except.ok r → ∀ d, Effect.sleep d ∉ r.effects) := by
  refine ⟨?_, ?_, ?_, ?_⟩
  · intro hmin hmax hle hfit
    constructor
    · obtain ⟨d, _, _, _, h⟩ := Encrypt_ok hmin hmax hle hfit ping v
      rw [h]
      simp
    · intro hx
      obtain ⟨d, hd, _, _, h⟩ := Encrypt_ok hmin hmax hle hfit x v
      refine ⟨d, hd, ?_⟩
      rw [h, if_pos hx]
  · intro hmin hmax hle hfit
    constructor
    · obtain ⟨d, _, _, _, h⟩ := Decrypt_ok hmin hmax hle hfit ping v
      rw [h]
      simp
    · intro hx
      obtain ⟨d, hd, _, _, h⟩ := Decrypt_ok hmin hmax hle hfit x v
      refine ⟨d, hd, ?_⟩
      rw [h, if_pos hx]
  · intro r hr d
    obtain ⟨e, he⟩ := Encrypt_effects hr
    rw [he]
    simp
  · intro r hr d
    obtain ⟨e, he⟩ := Decrypt_effects hr
    rw [he]
    simp

/-- The amended C5 with bounds of 5 s and 6 s: "ping" is answered without a sleep, "hello"
after a sleep of the sampled value. -/
theorem sentinel_bypass_witness :
    (Encrypt (NewNopService "/tmp/kms.socket" 5000000000 5000000000 6000000000
          5000000000 6000000000) { plain := ping } 31337 = Except.ok {
        response := { cipher := ping }
        err := none
        effects := [Effect.sample 5000000000 6000000000] } ∧
     ∃ d, generateRandomDuration 5000000000 6000000000 31337 = Except.ok d ∧
       Encrypt (NewNopService "/tmp/kms.socket" 5000000000 5000000000 6000000000
          5000000000 6000000000) { plain := [104, 101, 108, 108, 111] } 31337 = Except.ok {
        response := { cipher := [104, 101, 108, 108, 111] }
        err := none
        effects := [Effect.sample 5000000000 6000000000, Effect.sleep d] }) ∧
    (Decrypt (NewNopService "/tmp/kms.socket" 5000000000 5000000000 6000000000
          5000000000 6000000000) { cipher := ping } 31337 = Except.ok {
        response := { plain := ping }
        err := none
        effects := [Effect.sample 5000000000 6000000000] } ∧
     ∃ d, generateRandomDuration 5000000000 6000000000 31337 = Except.ok d ∧
       Decrypt (NewNopService "/tmp/kms.socket" 5000000000 5000000000 6000000000
          5000000000 6000000000) { cipher := [104, 101, 108, 108, 111] } 31337 = Except.ok {
        response := { plain := [104, 101, 108, 108, 111] }
        err := none
        effects := [Effect.sample 5000000000 6000000000, Effect.sleep d] }) ∧
    (∀ d, Effect.sleep d ∉ [Effect.sample 5000000000 6000000000]) ∧
    (∀ d, Effect.sleep d ∉ [Effect.sample 1000000000 5000000000]) :=
  have h := sentinel_bypass
    (NewNopService "/tmp/kms.socket" 5000000000 5000000000 6000000000 5000000000 6000000000)
    [104, 101, 108, 108, 111] 31337
  have h2 := sentinel_bypass
    (NewNopService "/tmp/kms.socket" 5000000000 1000000000 5000000000 5000000000 6000000000)
    [] 31337
  ⟨⟨(h.1 (by decide) (by decide) (by decide) (by decide)).1,
    (h.1 (by decide) (by decide) (by decide) (by decide)).2 (by decide)⟩,
   ⟨(h.2.1 (by decide) (by decide) (by decide) (by decide)).1,
    (h.2.1 (by decide) (by decide) (by decide) (by decide)).2 (by decide)⟩,
   h.2.2.1
     { response := { cipher := ping }
       err := none
       effects := [Effect.sample 5000000000 6000000000] } rfl,
   h2.2.2.2
     { response := { plain := ping }
       err := none
       effects := [Effect.sample 1000000000 5000000000] } rfl⟩

/-- C6, as stated, fails: a service built with encrypt bounds -5e18 ns and 5e18 ns (and
decrypt bounds both 0) has `min ≤ max` for both operations, but `Encrypt("hello")`
applies no delay in the window: the sample panics, and so does the handler. -/
theorem Encrypt_hello_wide_window_panics :
    (-5000000000000000000 : Int) ≤ 5000000000000000000 ∧ (0 : Int) ≤ 0 ∧
    generateRandomDuration (-5000000000000000000) 5000000000000000000 7
      = Except.error Panic.invalidInt63nArgument ∧
    Encrypt (NewNopService "/tmp/kms.socket" 5000000000 0 0
        (-5000000000000000000) 5000000000000000000)
        { plain := [104, 101, 108, 108, 111] } 7
      = Except.error Panic.invalidInt63nArgument ∧
    ¬ ∃ r, Encrypt (NewNopService "/tmp/kms.socket" 5000000000 0 0
        (-5000000000000000000) 5000000000000000000)
        { plain := [104, 101, 108, 108, 111] } 7 = Except.ok r := by
  refine ⟨by decide, by decide, rfl, rfl, ?_⟩
  rintro ⟨r, hr⟩
  have hp : Encrypt (NewNopService "/tmp/kms.socket" 5000000000 0 0
        (-5000000000000000000) 5000000000000000000)
        { plain := [104, 101, 108, 108, 111] } 7
      = Except.error Panic.invalidInt63nArgument := rfl
  rw [hp] at hr
  cases hr

/-- C6, amended: for every service built by `NewNopService` and every payload other than
"ping", when the encrypt bounds are `int64` values with `encMin ≤ encMax` and a difference
that fits an `int64` (so for all non-negative bounds), the delay `Encrypt` applies is
exactly the value of `generateRandomDuration(encMin, encMax)` and lies in
`[encMin, encMax]`, whatever the decrypt bounds are, and the payload comes back; and the
same holds for `Decrypt` with the decrypt bounds, whatever the encrypt bounds are. -/
theorem handler_delay_from_own_bounds (addr : String) (timeout : Int)
    (decMin decMax encMin encMax : Int) (x : Bytes) (v : Nat) (hx : x ≠ ping) :
    (isInt64 encMin → isInt64 encMax → encMin ≤ encMax →
      encMax - encMin < 9223372036854775808 →
      ∃ d, generateRandomDuration encMin encMax v = Except.ok d ∧
        encMin ≤ d ∧ d ≤ encMax ∧
        Encrypt (NewNopService addr timeout decMin decMax encMin encMax) { plain := x } v
          = Except.ok {
              response := { cipher := x }
              err := none
              effects := [Effect.sample encMin encMax, Effect.sleep d] }) ∧
    (isInt64 decMin → isInt64 decMax → decMin ≤ decMax →
      decMax - decMin < 9223372036854775808 →
      ∃ d, generateRandomDuration decMin decMax v = Except.ok d ∧
        decMin ≤ d ∧ d ≤ decMax ∧
        Decrypt (NewNopService addr timeout decMin decMax encMin encMax) { cipher := x } v
          = Except.ok {
              response := { plain := x }
              err := none
              effects := [Effect.sample decMin decMax, Effect.sleep d] }) := by
  constructor
  · intro hmin hmax hle hfit
    obtain ⟨d, hd, h1, h2, h⟩ :=
      Encrypt_ok (n := NewNopService addr timeout decMin decMax encMin encMax)
        hmin hmax hle hfit x v
    refine ⟨d, hd, h1, h2, ?_⟩
    rw [h, if_pos hx]
    rfl
  · intro hmin hmax hle hfit
    obtain ⟨d, hd, h1, h2, h⟩ :=
      Decrypt_ok (n := NewNopService addr timeout decMin decMax encMin encMax)
        hmin hmax hle hfit x v
    refine ⟨d, hd, h1, h2, ?_⟩
    rw [h, if_pos hx]
    rfl

/-- The amended C6 at encMin = 100 ms, encMax = 200 ms and the payload "hello". -/
theorem handler_delay_from_own_bounds_witness :
    (∃ d, generateRandomDuration 100000000 200000000 123456789012 = Except.ok d ∧
        100000000 ≤ d ∧ d ≤ 200000000 ∧
        Encrypt (NewNopService "/tmp/kms.socket" 5000000000 0 0 100000000 200000000)
            { plain := [104, 101, 108, 108, 111] } 123456789012
          = Except.ok {
              response := { cipher := [104, 101, 108, 108, 111] }
              err := none
              effects := [Effect.sample 100000000 200000000, Effect.sleep d] }) ∧
    (∃ d, generateRandomDuration 0 0 123456789012 = Except.ok d ∧
        0 ≤ d ∧ d ≤ 0 ∧
        Decrypt (NewNopService "/tmp/kms.socket" 5000000000 0 0 100000000 200000000)
            { cipher := [104, 101, 108, 108, 111] } 123456789012
          = Except.ok {
              response := { plain := [104, 101, 108, 108, 111] }
              err := none
              effects := [Effect.sample 0 0, Effect.sleep d] }) :=
  have h := handler_delay_from_own_bounds "/tmp/kms.socket" 5000000000 0 0
    100000000 200000000 [104, 101, 108, 108, 111] 123456789012 (by decide)
  ⟨h.1 (by decide) (by decide) (by decide) (by decide),
   h.2 (by decide) (by decide) (by decide) (by decide)⟩

/-- C7: for every service configuration (the bounds are not looked at, so also with
`min > max`) and every request, `Version` returns, with no error, the response with
version "v1beta1", runtime name "mock-kms-plugin" and runtime version "0.0.1", all three
non-empty; the reply is the same for every configuration and request, and no latency is
sampled and no sleep is made. -/
theorem Version_fixed (n n2 : NopService) (request request2 : VersionRequest) :
    (∃ r, Version n request = Except.ok r ∧ r.err = none ∧
      r.response.version = "v1beta1" ∧ r.response.runtimeName = "mock-kms-plugin" ∧
      r.response.runtimeVersion = "0.0.1" ∧
      r.response.version ≠ "" ∧ r.response.runtimeName ≠ "" ∧
      r.response.runtimeVersion ≠ "" ∧ r.effects = []) ∧
    Version n request = Version n2 request2 :=
  ⟨⟨_, rfl, rfl, rfl, rfl, rfl, by decide, by decide, by decide, rfl⟩, rfl⟩

/-! ## Construction and lifecycle: claims C8, C9, C10 -/

/-- C8, as stated, fails: `NewNopService` called with encrypt bounds min = 200 ms and
max = 100 ms returns an instance, with no server recorded, whose bounds have
`encMin > encMax`; the inverted bounds are first detected by an `Encrypt` request, which
panics. The same holds on the decrypt side. -/
theorem NewNopService_accepts_inverted_bounds :
    (NewNopService "/tmp/kms.socket" 5000000000 0 0 200000000 100000000).server = none ∧
    (NewNopService "/tmp/kms.socket" 5000000000 0 0 200000000 100000000).encryptionLatencyMin
      > (NewNopService "/tmp/kms.socket" 5000000000 0 0
          200000000 100000000).encryptionLatencyMax ∧
    Encrypt (NewNopService "/tmp/kms.socket" 5000000000 0 0 200000000 100000000)
        { plain := [104, 101, 108, 108, 111] } 0 = Except.error Panic.minGreaterThanMax ∧
    (NewNopService "/tmp/kms.socket" 5000000000 200000000 100000000 0 0).decryptionLatencyMin
      > (NewNopService "/tmp/kms.socket" 5000000000 200000000 100000000
          0 0).decryptionLatencyMax ∧
    Decrypt (NewNopService "/tmp/kms.socket" 5000000000 200000000 100000000 0 0)
        { cipher := [104, 101, 108, 108, 111] } 0 = Except.error Panic.minGreaterThanMax ∧
    ¬ (∀ (addr : String) (timeout decMin decMax encMin encMax : Int),
        (NewNopService addr timeout decMin decMax encMin encMax).encryptionLatencyMin
          ≤ (NewNopService addr timeout decMin decMax encMin encMax).encryptionLatencyMax ∧
        (NewNopService addr timeout decMin decMax encMin encMax).decryptionLatencyMin
          ≤ (NewNopService addr timeout decMin decMax encMin encMax).decryptionLatencyMax) := by
  refine ⟨rfl, by decide, rfl, by decide, rfl, ?_⟩
  intro h
  have h1 := (h "/tmp/kms.socket" 5000000000 0 0 200000000 100000000).1
  exact absurd h1 (by decide)

/-- C8, amended: construction validates nothing. `NewNopService` returns an instance for
all arguments, storing the four bounds as given and recording no server; a bound pair
with `min > max` is detected by the requests of that operation only: every `Encrypt`
(every `Decrypt`) on the instance, also one with the payload "ping", panics with the
sampler's message. -/
theorem NewNopService_no_validation (addr : String) (timeout : Int)
    (decMin decMax encMin encMax : Int) (x : Bytes) (v : Nat) :
    NewNopService addr timeout decMin decMax encMin encMax =
      { addr := addr, timeout := timeout, server := none,
        encryptionLatencyMin := encMin, decryptionLatencyMin := decMin,
        encryptionLatencyMax := encMax, decryptionLatencyMax := decMax } ∧
    (encMin > encMax →
      Encrypt (NewNopService addr timeout decMin decMax encMin encMax) { plain := x } v
        = Except.error Panic.minGreaterThanMax) ∧
    (decMin > decMax →
      Decrypt (NewNopService addr timeout decMin decMax encMin encMax) { cipher := x } v
        = Except.error Panic.minGreaterThanMax) :=
  ⟨rfl,
   fun h => Encrypt_panics (n := NewNopService addr timeout decMin decMax encMin encMax) h x v,
   fun h => Decrypt_panics (n := NewNopService addr timeout decMin decMax encMin encMax) h x v⟩

/-- The amended C8 on an instance whose two bound pairs are both inverted. -/
theorem NewNopService_no_validation_witness :
    Encrypt (NewNopService "/tmp/kms.socket" 5000000000 3000000000 1000000000
        2000000000 1000000000) { plain := ping } 99 = Except.error Panic.minGreaterThanMax ∧
    Decrypt (NewNopService "/tmp/kms.socket" 5000000000 3000000000 1000000000
        2000000000 1000000000) { cipher := ping } 99 = Except.error Panic.minGreaterThanMax :=
  ⟨(NewNopService_no_validation "/tmp/kms.socket" 5000000000 3000000000 1000000000
      2000000000 1000000000 ping 99).2.1 (by decide),
   (NewNopService_no_validation "/tmp/kms.socket" 5000000000 3000000000 1000000000
      2000000000 1000000000 ping 99).2.2 (by decide)⟩

/-- C9, as stated, fails on a Stopped instance: after construction, a successful start and
a first `Shutdown`, the instance still records server 0, so a second `Shutdown` issues
`GracefulStop` on that server again and a `Close` issues `Stop` on it. -/
theorem second_Shutdown_issues_stop :
    Stopped
      (Shutdown
        (ListenAndServe (NewNopService "/tmp/test.sock" 5000000000 0 0 0 0) Grpc.fresh none).1
        (ListenAndServe (NewNopService "/tmp/test.sock" 5000000000 0 0 0 0)
          Grpc.fresh none).2.1).1
      (Shutdown
        (ListenAndServe (NewNopService "/tmp/test.sock" 5000000000 0 0 0 0) Grpc.fresh none).1
        (ListenAndServe (NewNopService "/tmp/test.sock" 5000000000 0 0 0 0)
          Grpc.fresh none).2.1).2 ∧
    (Shutdown
        (ListenAndServe (NewNopService "/tmp/test.sock" 5000000000 0 0 0 0) Grpc.fresh none).1
        (ListenAndServe (NewNopService "/tmp/test.sock" 5000000000 0 0 0 0)
          Grpc.fresh none).2.1).2.calls
      = [(0, ServerCall.register), (0, ServerCall.serve), (0, ServerCall.gracefulStop)] ∧
    (Shutdown
      (Shutdown
        (ListenAndServe (NewNopService "/tmp/test.sock" 5000000000 0 0 0 0) Grpc.fresh none).1
        (ListenAndServe (NewNopService "/tmp/test.sock" 5000000000 0 0 0 0)
          Grpc.fresh none).2.1).1
      (Shutdown
        (ListenAndServe (NewNopService "/tmp/test.sock" 5000000000 0 0 0 0) Grpc.fresh none).1
        (ListenAndServe (NewNopService "/tmp/test.sock" 5000000000 0 0 0 0)
          Grpc.fresh none).2.1).2).2.calls
      = [(0, ServerCall.register), (0, ServerCall.serve), (0, ServerCall.gracefulStop),
         (0, ServerCall.gracefulStop)] ∧
    (Close
      (Shutdown
        (ListenAndServe (NewNopService "/tmp/test.sock" 5000000000 0 0 0 0) Grpc.fresh none).1
        (ListenAndServe (NewNopService "/tmp/test.sock" 5000000000 0 0 0 0)
          Grpc.fresh none).2.1).1
      (Shutdown
        (ListenAndServe (NewNopService "/tmp/test.sock" 5000000000 0 0 0 0) Grpc.fresh none).1
        (ListenAndServe (NewNopService "/tmp/test.sock" 5000000000 0 0 0 0)
          Grpc.fresh none).2.1).2).2.calls
      = [(0, ServerCall.register), (0, ServerCall.serve), (0, ServerCall.gracefulStop),
         (0, ServerCall.stop)] ∧
    (Shutdown
      (Shutdown
        (ListenAndServe (NewNopService "/tmp/test.sock" 5000000000 0 0 0 0) Grpc.fresh none).1
        (ListenAndServe (NewNopService "/tmp/test.sock" 5000000000 0 0 0 0)
          Grpc.fresh none).2.1).1
      (Shutdown
        (ListenAndServe (NewNopService "/tmp/test.sock" 5000000000 0 0 0 0) Grpc.fresh none).1
        (ListenAndServe (NewNopService "/tmp/test.sock" 5000000000 0 0 0 0)
          Grpc.fresh none).2.1).2).2
      ≠ (Shutdown
        (ListenAndServe (NewNopService "/tmp/test.sock" 5000000000 0 0 0 0) Grpc.fresh none).1
        (ListenAndServe (NewNopService "/tmp/test.sock" 5000000000 0 0 0 0)
          Grpc.fresh none).2.1).2 :=
  ⟨by decide, rfl, rfl, rfl, by decide⟩

/-- C9, amended: `Shutdown` and `Close` never change a field of the instance. On an
instance that records no server (a freshly constructed one) they are no-ops: no call is
issued on any server. On an instance that records a server, Running or already Stopped,
`Shutdown` issues exactly one `GracefulStop` and `Close` exactly one `Stop` on the recorded
server; the handle is never cleared, so a second stop issues its call again. -/
theorem Shutdown_Close_effect (n : NopService) (g : Grpc) :
    (Shutdown n g).1 = n ∧ (Close n g).1 = n ∧
    (n.server = none → Shutdown n g = (n, g) ∧ Close n g = (n, g)) ∧
    (∀ h, n.server = some h →
      (Shutdown n g).2 = { g with calls := g.calls ++ [(h, ServerCall.gracefulStop)] } ∧
      (Close n g).2 = { g with calls := g.calls ++ [(h, ServerCall.stop)] } ∧
      (Shutdown (Shutdown n g).1 (Shutdown n g).2).2 =
        { g with calls := g.calls ++
            [(h, ServerCall.gracefulStop), (h, ServerCall.gracefulStop)] }) ∧
    (∀ (addr : String) (timeout decMin decMax encMin encMax : Int),
      Shutdown (NewNopService addr timeout decMin decMax encMin encMax) g
        = (NewNopService addr timeout decMin decMax encMin encMax, g) ∧
      Close (NewNopService addr timeout decMin decMax encMin encMax) g
        = (NewNopService addr timeout decMin decMax encMin encMax, g)) := by
  refine ⟨?_, ?_, ?_, ?_, ?_⟩
  · unfold Shutdown
    cases n.server <;> rfl
  · unfold Close
    cases n.server <;> rfl
  · intro h
    unfold Shutdown Close
    rw [h]
    exact ⟨rfl, rfl⟩
  · intro h hh
    unfold Shutdown Close
    simp [hh]
  · intro addr timeout decMin decMax encMin encMax
    exact ⟨rfl, rfl⟩

/-- The amended C9 on a freshly constructed instance and on a started one. -/
theorem Shutdown_Close_effect_witness :
    (Shutdown (NewNopService "/tmp/test.sock" 5000000000 0 0 0 0) Grpc.fresh
        = (NewNopService "/tmp/test.sock" 5000000000 0 0 0 0, Grpc.fresh) ∧
      Close (NewNopService "/tmp/test.sock" 5000000000 0 0 0 0) Grpc.fresh
        = (NewNopService "/tmp/test.sock" 5000000000 0 0 0 0, Grpc.fresh)) ∧
    (Shutdown
        (ListenAndServe (NewNopService "/tmp/test.sock" 5000000000 0 0 0 0) Grpc.fresh none).1
        (ListenAndServe (NewNopService "/tmp/test.sock" 5000000000 0 0 0 0)
          Grpc.fresh none).2.1).2.calls
      = [(0, ServerCall.register), (0, ServerCall.serve), (0, ServerCall.gracefulStop)] :=
  ⟨(Shutdown_Close_effect (NewNopService "/tmp/test.sock" 5000000000 0 0 0 0)
      Grpc.fresh).2.2.1 rfl,
   congrArg Grpc.calls
    ((Shutdown_Close_effect
      (ListenAndServe (NewNopService "/tmp/test.sock" 5000000000 0 0 0 0) Grpc.fresh none).1
      (ListenAndServe (NewNopService "/tmp/test.sock" 5000000000 0 0 0 0)
        Grpc.fresh none).2.1).2.2.2.1 0 rfl).1⟩

/-- C10, as stated, fails: the code has no guard against a start while Running. With the
instance Running on server 0, a second `ListenAndServe` whose bind succeeds does not
return an error: it creates server 1, records it in place of server 0 and serves on it,
while server 0 is still serving. -/
theorem second_start_replaces_server :
    Running
      (ListenAndServe (NewNopService "/tmp/test.sock" 5000000000 0 0 0 0) Grpc.fresh none).1
      (ListenAndServe (NewNopService "/tmp/test.sock" 5000000000 0 0 0 0)
        Grpc.fresh none).2.1 ∧
    (ListenAndServe (NewNopService "/tmp/test.sock" 5000000000 0 0 0 0)
        Grpc.fresh none).1.server = some 0 ∧
    (ListenAndServe
      (ListenAndServe (NewNopService "/tmp/test.sock" 5000000000 0 0 0 0) Grpc.fresh none).1
      (ListenAndServe (NewNopService "/tmp/test.sock" 5000000000 0 0 0 0)
        Grpc.fresh none).2.1 none).2.2 = Started.serving 1 ∧
    (ListenAndServe
      (ListenAndServe (NewNopService "/tmp/test.sock" 5000000000 0 0 0 0) Grpc.fresh none).1
      (ListenAndServe (NewNopService "/tmp/test.sock" 5000000000 0 0 0 0)
        Grpc.fresh none).2.1 none).1.server = some 1 ∧
    serving
      (ListenAndServe
        (ListenAndServe (NewNopService "/tmp/test.sock" 5000000000 0 0 0 0) Grpc.fresh none).1
        (ListenAndServe (NewNopService "/tmp/test.sock" 5000000000 0 0 0 0)
          Grpc.fresh none).2.1 none).2.1 0 ∧
    serving
      (ListenAndServe
        (ListenAndServe (NewNopService "/tmp/test.sock" 5000000000 0 0 0 0) Grpc.fresh none).1
        (ListenAndServe (NewNopService "/tmp/test.sock" 5000000000 0 0 0 0)
          Grpc.fresh none).2.1 none).2.1 1 :=
  ⟨by decide, rfl, rfl, rfl, by decide, by decide⟩

/-- C10, amended: a `ListenAndServe` whose bind fails returns the bind error and leaves
the instance, its recorded server handle included, and the servers unchanged, in every
state. A `ListenAndServe` whose bind succeeds never fails on account of the state: also
on a Running instance it creates a new server, records it in place of the handle recorded
before, changes no other field and serves on it. -/
theorem ListenAndServe_effect (n : NopService) (g : Grpc) :
    (∀ err, ListenAndServe n g (some err) = (n, g, Started.failed err)) ∧
    (ListenAndServe n g none).2.2 = Started.serving g.servers ∧
    (ListenAndServe n g none).1 = { n with server := some g.servers } ∧
    (ListenAndServe n g none).2.1.servers = g.servers + 1 ∧
    (ListenAndServe n g none).2.1.calls
      = g.calls ++ [(g.servers, ServerCall.register), (g.servers, ServerCall.serve)] ∧
    (∀ h, n.server = some h → h < g.servers →
      (ListenAndServe n g none).1.server ≠ n.server) := by
  refine ⟨fun err => rfl, rfl, rfl, rfl, rfl, ?_⟩
  intro h hh hlt
  rw [hh]
  show some g.servers ≠ some h
  intro heq
  injection heq with heq
  omega

/-- The amended C10 on an instance started twice with a successful bind. -/
theorem ListenAndServe_effect_witness :
    (ListenAndServe
      (ListenAndServe (NewNopService "/tmp/test.sock" 5000000000 0 0 0 0) Grpc.fresh none).1
      (ListenAndServe (NewNopService "/tmp/test.sock" 5000000000 0 0 0 0)
        Grpc.fresh none).2.1 none).1.server
      ≠ (ListenAndServe (NewNopService "/tmp/test.sock" 5000000000 0 0 0 0)
          Grpc.fresh none).1.server :=
  (ListenAndServe_effect
    (ListenAndServe (NewNopService "/tmp/test.sock" 5000000000 0 0 0 0) Grpc.fresh none).1
    (ListenAndServe (NewNopService "/tmp/test.sock" 5000000000 0 0 0 0)
      Grpc.fresh none).2.1).2.2.2.2.2 0 rfl (by decide)

end MockKms
